import Mathlib

/-!
Shallow embedding of the `blog` app of the `django_sprint4` repository
(`src/blogicum/blog/views.py`, `src/blogicum/blog/forms.py`,
`src/blogicum/blog/urls.py`).

The persistent store is a record of lists (users, posts, comments).  Django
model instances compare by primary key (`Model.__eq__` compares `pk`), so
object comparisons such as `comment.author != request.user` are embedded as
id comparisons.  Query-time filters such as `category__is_published=True`
follow Django's relational semantics: a filter across a nullable foreign key
drops rows whose key is null.  The wall-clock time used by
`timezone.now()` is an injected `now : Int` parameter.

The `models.py` file is not part of the sources; field lists for the
entities follow the spec's data model (section 3) and the field names used
by `views.py` and `forms.py`.
-/

/-- A `User` row: identity with unique username, display name, email
(spec section 3; fields used by `UserForm` in `forms.py`). -/
structure User where
  id : Nat
  username : String
  first_name : String
  last_name : String
  email : String
deriving DecidableEq

/-- A `Category` row: slug (unique), title, published flag (spec section 3). -/
structure Category where
  id : Nat
  slug : String
  title : String
  is_published : Bool
deriving DecidableEq

/-- A `Location` row: optional descriptive tag attachable to a Post. -/
structure Location where
  id : Nat
  name : String
deriving DecidableEq

/-- A `Post` row: title, body, `pub_date`, published flag, author, optional
category, optional location (spec section 3); `created_at` is the field
excluded by `PostForm` alongside `author`. -/
structure Post where
  pk : Nat
  title : String
  text : String
  pub_date : Int
  is_published : Bool
  author : User
  category : Option Category
  location : Option Location
  created_at : Int
deriving DecidableEq

/-- A `Comment` row: text, author, parent post reference (spec section 3). -/
structure Comment where
  pk : Nat
  text : String
  author : User
  post_id : Nat
deriving DecidableEq

/-- The entity store: one list per table. -/
structure DB where
  users : List User
  posts : List Post
  comments : List Comment
deriving DecidableEq

/-- The `Count("comments")` aggregate of `views.py`: number of `Comment`
rows whose foreign key references the given post, in the given store. -/
def liveCommentCount (db : DB) (p : Post) : Nat :=
  (db.comments.filter (fun c => c.post_id == p.pk)).length

/-- A post as it appears in a listing queryset: the row plus the
`comment_count` value attached by `.annotate(comment_count=Count("comments"))`. -/
structure AnnPost where
  post : Post
  comment_count : Nat
deriving DecidableEq

/-- Attaches the `comment_count` aggregate to a post. -/
def annotate (db : DB) (p : Post) : AnnPost :=
  { post := p, comment_count := liveCommentCount db p }

/-- The filter `category__is_published=True`: it traverses the nullable
`category` foreign key, so a row with a null category is dropped
(Django join semantics). -/
def category__is_published (p : Post) : Bool :=
  match p.category with
  | some c => c.is_published
  | none => false

/-- Insertion step for `.order_by('-pub_date')`: keeps the list sorted by
`pub_date` descending. -/
def insertDesc (p : AnnPost) : List AnnPost → List AnnPost
  | [] => [p]
  | q :: qs =>
    if q.post.pub_date ≤ p.post.pub_date then p :: q :: qs
    else q :: insertDesc p qs

/-- The ordering `.order_by('-pub_date')` of `views.py`: sort by `pub_date`
descending (tie order among equal timestamps is implementation defined). -/
def order_by_pub_date_desc : List AnnPost → List AnnPost
  | [] => []
  | p :: ps => insertDesc p (order_by_pub_date_desc ps)

/-- The module-level pagination constant `POSTS_PER_PAGE = 10` of `views.py`. -/
def POSTS_PER_PAGE : Nat := 10

namespace IndexView

/-- The `paginate_by = POSTS_PER_PAGE` attribute of `IndexView`. -/
def paginate_by : Nat := POSTS_PER_PAGE

/-- The queryset of `IndexView` (`views.py` lines 25-34): posts filtered by
`pub_date__lt=timezone.now()`, `is_published=True`,
`category__is_published=True`, annotated with `comment_count`, ordered by
`-pub_date`. -/
def get_queryset (db : DB) (now : Int) : List AnnPost :=
  order_by_pub_date_desc
    ((db.posts.filter (fun p =>
        decide (p.pub_date < now) && p.is_published && category__is_published p)).map
      (annotate db))

end IndexView

/-- Outcome of a listing view whose setup can raise `Http404`
(`get_object_or_404`). -/
inductive ListingOutcome where
  | notFound
  | ok (object_list : List AnnPost)
deriving DecidableEq

namespace Profile

/-- The `paginate_by = 10` attribute of the `Profile` view. -/
def paginate_by : Nat := 10

/-- The queryset of the `Profile` view (`views.py` lines 51-58): look up the
user by username (404 when absent), then take `author.posts` filtered by
`author__username__exact=username`, annotated with `comment_count`, ordered
by `-pub_date`.  No visibility filter is applied. -/
def get_queryset (db : DB) (username : String) : ListingOutcome :=
  match db.users.find? (fun u => u.username == username) with
  | none => ListingOutcome.notFound
  | some author =>
    ListingOutcome.ok
      (order_by_pub_date_desc
        ((db.posts.filter (fun p =>
            p.author.id == author.id && p.author.username == username)).map
          (annotate db)))

/-- The profile feed as observed by a given viewer.  The view receives
`request.user` (the viewer) but `get_queryset` never consults it, so the
result ignores the `viewer` argument exactly as the code does. -/
def feedObservedBy (db : DB) (_viewer : Option User) (username : String) :
    ListingOutcome :=
  get_queryset db username

end Profile

/-- The rendering context of `PostDetailView`: the post, its comments, and a
blank `CommentForm` descriptor. -/
structure DetailContext where
  post : Post
  comments : List Comment
  form_is_blank : Bool
deriving DecidableEq

/-- Outcome of `PostDetailView`: `Http404` or a rendered detail page. -/
inductive DetailOutcome where
  | notFound
  | rendered (ctx : DetailContext)
deriving DecidableEq

namespace PostDetailView

/-- The `PostDetailView` handler (`views.py` lines 138-146): a plain
`DetailView` looking the post up by `pk`, with context `form = CommentForm()`
and `comments = self.object.comments`.  It applies no visibility check. -/
def get (db : DB) (pk : Nat) : DetailOutcome :=
  match db.posts.find? (fun p => p.pk == pk) with
  | none => DetailOutcome.notFound
  | some p =>
    DetailOutcome.rendered
      { post := p
        comments := db.comments.filter (fun c => c.post_id == p.pk)
        form_is_blank := true }

/-- The detail page as observed by a given viewer.  The view receives
`request.user` but never consults it, so the result ignores the `viewer`
argument exactly as the code does. -/
def getObservedBy (db : DB) (_viewer : Option User) (pk : Nat) : DetailOutcome :=
  get db pk

end PostDetailView

/-- A redirect or success-url target, i.e. a named route of `blog/urls.py`
with its arguments. -/
inductive Loc where
  | index
  | profile (username : String)
  | post_detail (pk : Nat)
deriving DecidableEq

/-- Outcome of a mutation view for an authenticated request: `Http404`, a
redirect issued by `dispatch` (authorization denial), or a successful
mutation.  Every constructor carries the resulting store, so that "no
mutation applied" is an explicit statement. -/
inductive MutOutcome where
  | notFound (db : DB)
  | redirect (db : DB) (target : Loc)
  | success (db : DB) (next : Loc)
deriving DecidableEq

/-- The payload of `PostForm` (`forms.py` lines 13-23): a `ModelForm` over
`Post` with `exclude = ('author', 'created_at')`, so every other model field
is editable. -/
structure PostFormData where
  title : String
  text : String
  pub_date : Int
  is_published : Bool
  category : Option Category
  location : Option Location
deriving DecidableEq

namespace PostForm

/-- Saving a bound `PostForm` over an existing instance: the editable fields
take the submitted values; `author`, `created_at` and the primary key are
untouched. -/
def apply (p : Post) (d : PostFormData) : Post :=
  { p with
    title := d.title
    text := d.text
    pub_date := d.pub_date
    is_published := d.is_published
    category := d.category
    location := d.location }

end PostForm

/-- The payload of `UserForm` (`forms.py` lines 6-10): fields
`first_name`, `last_name`, `username`, `email`. -/
structure UserFormData where
  first_name : String
  last_name : String
  username : String
  email : String
deriving DecidableEq

namespace UserForm

/-- Saving a bound `UserForm` over an existing user: the four form fields
take the submitted values; the primary key is untouched. -/
def apply (u : User) (d : UserFormData) : User :=
  { u with
    first_name := d.first_name
    last_name := d.last_name
    username := d.username
    email := d.email }

end UserForm

namespace PostUpdateView

/-- The `PostUpdateView` flow (`views.py` lines 184-203) for an
authenticated `request_user`: `dispatch` looks the post up by the URL `pk`
(404 when absent) and, when `post_obj.author != request.user` (Django model
equality: primary-key comparison), redirects to `blog:post_detail` with the
URL `pk` without mutating anything; otherwise the bound `PostForm` is saved
over the instance and `get_success_url` gives `blog:post_detail` with
`self.post_obj.pk`. -/
def handle (db : DB) (request_user : User) (pk : Nat) (d : PostFormData) :
    MutOutcome :=
  match db.posts.find? (fun p => p.pk == pk) with
  | none => MutOutcome.notFound db
  | some post_obj =>
    if post_obj.author.id ≠ request_user.id then
      MutOutcome.redirect db (Loc.post_detail pk)
    else
      MutOutcome.success
        { db with
          posts := db.posts.map (fun q =>
            if q.pk == post_obj.pk then PostForm.apply q d else q) }
        (Loc.post_detail post_obj.pk)

end PostUpdateView

namespace PostDeleteView

/-- The `PostDeleteView` flow (`views.py` lines 206-220): `dispatch` looks
the post up by `pk` (404 when absent) and redirects to `blog:post_detail`
with the URL `pk` when the actor is not the author; otherwise the post is
deleted (its comments removed by the relational cascade of the data model)
and `success_url` is `blog:index`. -/
def handle (db : DB) (request_user : User) (pk : Nat) : MutOutcome :=
  match db.posts.find? (fun p => p.pk == pk) with
  | none => MutOutcome.notFound db
  | some post =>
    if post.author.id ≠ request_user.id then
      MutOutcome.redirect db (Loc.post_detail pk)
    else
      MutOutcome.success
        { db with
          posts := db.posts.filter (fun q => q.pk != post.pk)
          comments := db.comments.filter (fun c => c.post_id != post.pk) }
        Loc.index

end PostDeleteView

/-- The primary key the store assigns to a newly inserted comment
(autoincrement: one past the largest existing key). -/
def freshCommentPk (db : DB) : Nat :=
  (db.comments.map (fun c => c.pk)).foldr Nat.max 0 + 1

namespace CommentCreateView

/-- The `CommentCreateView` flow (`views.py` lines 223-234) for an
authenticated `request_user`: `form_valid` looks the target post up by the
URL `pk` (404 when absent, nothing persisted), binds
`form.instance.author = request.user` and `form.instance.post` to the
fetched post, persists, and `get_success_url` gives `blog:post_detail` with
the URL `pk`. -/
def handle (db : DB) (request_user : User) (pk : Nat) (text : String) :
    MutOutcome :=
  match db.posts.find? (fun p => p.pk == pk) with
  | none => MutOutcome.notFound db
  | some target =>
    MutOutcome.success
      { db with
        comments := db.comments ++
          [{ pk := freshCommentPk db
             text := text
             author := request_user
             post_id := target.pk }] }
      (Loc.post_detail pk)

end CommentCreateView

namespace CommentUpdateView

/-- The `CommentUpdateView` flow (`views.py` lines 237-250): `dispatch`
looks the comment up by `comment_pk` (404 when absent) and, when
`comment.author != request.user`, redirects to `blog:post_detail` passing
`comment.pk` — the comment's own primary key, not the parent post's —
without mutating anything; otherwise the bound `CommentForm` (field `text`)
is saved and `get_success_url` gives `blog:post_detail` with the URL `pk`
(the post id segment of the route). -/
def handle (db : DB) (request_user : User) (pk : Nat) (comment_pk : Nat)
    (text : String) : MutOutcome :=
  match db.comments.find? (fun c => c.pk == comment_pk) with
  | none => MutOutcome.notFound db
  | some comment =>
    if comment.author.id ≠ request_user.id then
      MutOutcome.redirect db (Loc.post_detail comment.pk)
    else
      MutOutcome.success
        { db with
          comments := db.comments.map (fun c =>
            if c.pk == comment.pk then { c with text := text } else c) }
        (Loc.post_detail pk)

end CommentUpdateView

namespace CommentDeleteView

/-- The `CommentDeleteView` flow (`views.py` lines 253-263): `dispatch`
looks the comment up by `comment_pk` (404 when absent) and redirects to
`blog:post_detail` with the URL `pk` when the actor is not the author;
otherwise the comment is deleted and the class attribute `success_url` is
`blog:index`. -/
def handle (db : DB) (request_user : User) (pk : Nat) (comment_pk : Nat) :
    MutOutcome :=
  match db.comments.find? (fun c => c.pk == comment_pk) with
  | none => MutOutcome.notFound db
  | some comment =>
    if comment.author.id ≠ request_user.id then
      MutOutcome.redirect db (Loc.post_detail pk)
    else
      MutOutcome.success
        { db with
          comments := db.comments.filter (fun c => c.pk != comment.pk) }
        Loc.index

end CommentDeleteView

namespace ProfileEdit

/-- The `ProfileEdit` flow (`views.py` lines 149-166) for an authenticated
`request_user`: `get_object` returns `self.request.user`, ignoring any
supplied lookup argument (the route `edit_profile/` carries no identifier),
so the bound `UserForm` is saved over the actor's own row; `get_success_url`
gives `blog:profile` with `self.request.user.username`, read after the save
mutated the in-memory instance, hence the submitted username. -/
def handle (db : DB) (request_user : User) (_supplied : Option Nat)
    (d : UserFormData) : MutOutcome :=
  MutOutcome.success
    { db with
      users := db.users.map (fun u =>
        if u.id == request_user.id then UserForm.apply u d else u) }
    (Loc.profile (UserForm.apply request_user d).username)

end ProfileEdit

/-- Concrete fixture: a user with id 1. -/
def uAlice : User :=
  { id := 1, username := "alice", first_name := "", last_name := "", email := "" }

/-- Concrete fixture: a user with id 2, distinct from `uAlice`. -/
def uBob : User :=
  { id := 2, username := "bob", first_name := "", last_name := "", email := "" }

/-- Concrete fixture: a published category. -/
def catPub : Category := { id := 1, slug := "c", title := "C", is_published := true }

/-- Concrete fixture: a publicly visible post by `uAlice` (past `pub_date`,
published, published category). -/
def postPublished : Post :=
  { pk := 1, title := "t", text := "b", pub_date := 5, is_published := true,
    author := uAlice, category := some catPub, location := none, created_at := 0 }

/-- Concrete fixture: a draft (unpublished) post by `uAlice`. -/
def postDraft : Post :=
  { pk := 2, title := "d", text := "b", pub_date := 3, is_published := false,
    author := uAlice, category := some catPub, location := none, created_at := 0 }

/-- Concrete fixture: a published, past-dated post by `uAlice` with a null
category. -/
def postNullCat : Post :=
  { pk := 4, title := "n", text := "b", pub_date := 0, is_published := true,
    author := uAlice, category := none, location := none, created_at := 0 }

/-- Concrete fixture: a visible post by `uAlice` with primary key 3, the
parent of `comment5` and `comment7`. -/
def post3 : Post :=
  { pk := 3, title := "p", text := "b", pub_date := 1, is_published := true,
    author := uAlice, category := some catPub, location := none, created_at := 0 }

/-- Concrete fixture: a comment by `uAlice` on `post3`, with a primary key
(5) different from its parent post's (3). -/
def comment5 : Comment := { pk := 5, text := "c", author := uAlice, post_id := 3 }

/-- Concrete fixture: a comment by `uAlice` on `post3`, with a primary key
(7) different from its parent post's (3). -/
def comment7 : Comment := { pk := 7, text := "c", author := uAlice, post_id := 3 }

/-- Concrete fixture: a store holding one visible post. -/
def dbFeed : DB := { users := [uAlice], posts := [postPublished], comments := [] }

/-- Concrete fixture: `dbFeed` after inserting one comment by `uBob` on the
post with primary key 1. -/
def dbFeedPlus : DB :=
  { dbFeed with comments := [{ pk := 1, text := "hi", author := uBob, post_id := 1 }] }

/-- Concrete fixture: a store holding one draft post by `uAlice`, with
`uBob` a registered third party. -/
def dbDraft : DB := { users := [uAlice, uBob], posts := [postDraft], comments := [] }

/-- Concrete fixture: a store holding one post with a null category. -/
def dbNullCat : DB := { users := [uAlice], posts := [postNullCat], comments := [] }

/-- Concrete fixture: a store holding `post3` and its two comments. -/
def dbComments : DB :=
  { users := [uAlice, uBob], posts := [post3], comments := [comment5, comment7] }

/-- Concrete fixture: a `PostForm` payload. -/
def dC6 : PostFormData :=
  { title := "t2", text := "b2", pub_date := 6, is_published := true,
    category := some catPub, location := none }

/-- Concrete fixture: a `UserForm` payload. -/
def dUF : UserFormData :=
  { first_name := "A", last_name := "B", username := "alice2", email := "e" }

theorem mem_insertDesc (x p : AnnPost) (l : List AnnPost) :
    x ∈ insertDesc p l ↔ x = p ∨ x ∈ l := by
  induction l with
  | nil => simp [insertDesc]
  | cons q qs ih =>
    by_cases hle : q.post.pub_date ≤ p.post.pub_date
    · simp [insertDesc, if_pos hle]
    · simp only [insertDesc, if_neg hle, List.mem_cons, ih]
      tauto

theorem pairwise_insertDesc (p : AnnPost) (l : List AnnPost)
    (h : l.Pairwise (fun a b => b.post.pub_date ≤ a.post.pub_date)) :
    (insertDesc p l).Pairwise (fun a b => b.post.pub_date ≤ a.post.pub_date) := by
  induction l with
  | nil => simp [insertDesc]
  | cons q qs ih =>
    rcases List.pairwise_cons.mp h with ⟨hq, hqs⟩
    by_cases hle : q.post.pub_date ≤ p.post.pub_date
    · simp only [insertDesc, if_pos hle]
      refine List.pairwise_cons.mpr ⟨?_, h⟩
      intro y hy
      rcases List.mem_cons.mp hy with rfl | hy2
      · exact hle
      · exact le_trans (hq y hy2) hle
    · simp only [insertDesc, if_neg hle]
      refine List.pairwise_cons.mpr ⟨?_, ih hqs⟩
      intro y hy
      rcases (mem_insertDesc y p qs).mp hy with rfl | hy2
      · exact le_of_lt (lt_of_not_le hle)
      · exact hq y hy2

theorem mem_order_by_pub_date_desc (x : AnnPost) (l : List AnnPost) :
    x ∈ order_by_pub_date_desc l ↔ x ∈ l := by
  induction l with
  | nil => simp [order_by_pub_date_desc]
  | cons p ps ih => simp [order_by_pub_date_desc, mem_insertDesc, ih]

theorem sorted_order_by_pub_date_desc (l : List AnnPost) :
    (order_by_pub_date_desc l).Pairwise
      (fun a b => b.post.pub_date ≤ a.post.pub_date) := by
  induction l with
  | nil => simp [order_by_pub_date_desc]
  | cons p ps ih => exact pairwise_insertDesc p _ ih

theorem category__is_published_iff (p : Post) :
    category__is_published p = true ↔
      ∃ c, p.category = some c ∧ c.is_published = true := by
  cases hc : p.category with
  | none => simp [category__is_published, hc]
  | some c => simp [category__is_published, hc]

/-- C2: the global feed contains exactly the posts with `pub_date` strictly
before the injected current time (a post dated exactly now is excluded),
`is_published` true and a published category; it is ordered by `pub_date`
descending and the view's page size is the fixed constant 10. -/
theorem C2_global_feed (db : DB) (now : Int) :
    (∀ x, x ∈ IndexView.get_queryset db now ↔
        ∃ p, p ∈ db.posts ∧ p.pub_date < now ∧ p.is_published = true ∧
          (∃ c, p.category = some c ∧ c.is_published = true) ∧
          x = annotate db p)
    ∧ (∀ p, p ∈ db.posts → p.pub_date = now →
        annotate db p ∉ IndexView.get_queryset db now)
    ∧ (IndexView.get_queryset db now).Pairwise
        (fun a b => b.post.pub_date ≤ a.post.pub_date)
    ∧ IndexView.paginate_by = 10 := by
  have hmemiff : ∀ x, x ∈ IndexView.get_queryset db now ↔
      ∃ p, p ∈ db.posts ∧ p.pub_date < now ∧ p.is_published = true ∧
        (∃ c, p.category = some c ∧ c.is_published = true) ∧
        x = annotate db p := by
    intro x
    rw [IndexView.get_queryset, mem_order_by_pub_date_desc]
    constructor
    · intro hx
      rcases List.mem_map.mp hx with ⟨p, hp, rfl⟩
      rcases List.mem_filter.mp hp with ⟨hmem, hcond⟩
      simp only [Bool.and_eq_true, decide_eq_true_eq] at hcond
      exact ⟨p, hmem, hcond.1.1, hcond.1.2,
        (category__is_published_iff p).mp hcond.2, rfl⟩
    · rintro ⟨p, hmem, hlt, hpub, hcat, rfl⟩
      refine List.mem_map.mpr ⟨p, List.mem_filter.mpr ⟨hmem, ?_⟩, rfl⟩
      simp only [Bool.and_eq_true, decide_eq_true_eq]
      exact ⟨⟨hlt, hpub⟩, (category__is_published_iff p).mpr hcat⟩
  refine ⟨hmemiff, ?_, ?_, rfl⟩
  · intro p hp hnow hmem
    rcases (hmemiff _).mp hmem with ⟨p2, _, hlt, _, _, heq⟩
    have hpp : p = p2 := congrArg AnnPost.post heq
    rw [← hpp, hnow] at hlt
    exact lt_irrefl now hlt
  · simp only [IndexView.get_queryset]
    exact sorted_order_by_pub_date_desc _

/-- Witness for C2 at a concrete store: the visible fixture post is in the
feed and the page size is 10. -/
theorem C2_global_feed_witness :
    annotate dbFeed postPublished ∈ IndexView.get_queryset dbFeed 10 ∧
      IndexView.paginate_by = 10 :=
  ⟨((C2_global_feed dbFeed 10).1 (annotate dbFeed postPublished)).mpr
      ⟨postPublished, by decide, by decide, rfl, ⟨catPub, rfl, rfl⟩, rfl⟩,
    (C2_global_feed dbFeed 10).2.2.2⟩

/-- C5 counterexample: a published, past-dated post with a null category is
NOT in the global feed, because the filter `category__is_published=True`
drops rows with a null category; the claim asserts it would appear. -/
theorem C5_null_category_hidden_cex :
    postNullCat.category = none
    ∧ postNullCat.is_published = true
    ∧ postNullCat.pub_date < 10
    ∧ postNullCat ∈ dbNullCat.posts
    ∧ annotate dbNullCat postNullCat ∉ IndexView.get_queryset dbNullCat 10
    ∧ IndexView.get_queryset dbNullCat 10 = [] := by
  decide

/-- C5 amended: every post in the global feed has an existing, published
category; in particular a post with a null category never appears, however
published and past-dated it is. -/
theorem C5_amended_null_category_excluded (db : DB) (now : Int) (x : AnnPost)
    (hx : x ∈ IndexView.get_queryset db now) :
    ∃ c, x.post.category = some c ∧ c.is_published = true := by
  rw [IndexView.get_queryset, mem_order_by_pub_date_desc] at hx
  rcases List.mem_map.mp hx with ⟨p, hp, rfl⟩
  rcases List.mem_filter.mp hp with ⟨_, hcond⟩
  simp only [Bool.and_eq_true, decide_eq_true_eq] at hcond
  exact (category__is_published_iff p).mp hcond.2

/-- Witness for the amended C5 at a concrete store. -/
theorem C5_amended_null_category_excluded_witness :
    ∃ c, (annotate dbFeed postPublished).post.category = some c ∧
      c.is_published = true :=
  C5_amended_null_category_excluded dbFeed 10 (annotate dbFeed postPublished)
    (by decide)

/-- C1 failing input: an authenticated non-author (`uBob`) requests
`CommentUpdateView` for `comment7` (primary key 7) whose parent post has
primary key 3.  The decision is Deny, but the redirect issued by the code is
`post_detail` with the comment's own primary key 7, not the parent post's
detail location `post_detail 3` as the claim requires. -/
theorem C1_comment_update_deny_redirect_bug :
    uBob.id ≠ comment7.author.id
    ∧ comment7.post_id = 3
    ∧ CommentUpdateView.handle dbComments uBob 3 7 "x" =
        MutOutcome.redirect dbComments (Loc.post_detail 7)
    ∧ Loc.post_detail 7 ≠ Loc.post_detail comment7.post_id := by
  decide

/-- C3 failing input: `postDraft` is unpublished and `uBob` is not its
author, yet the detail view renders the page for the existing post (no
visibility check is applied); the claim requires a NotFound outcome. -/
theorem C3_detail_renders_nonvisible_bug :
    postDraft.is_published = false
    ∧ uBob.id ≠ postDraft.author.id
    ∧ PostDetailView.getObservedBy dbDraft (some uBob) 2 =
        DetailOutcome.rendered
          { post := postDraft, comments := [], form_is_blank := true }
    ∧ PostDetailView.getObservedBy dbDraft (some uBob) 2 ≠
        DetailOutcome.notFound := by
  decide

/-- C4 counterexample: `uBob` (not the target user) observes `uAlice`'s
profile feed and it contains her unpublished draft, so the feed observed by
a third party is not restricted to publicly visible posts and the
self-view/other-view difference is empty rather than the set of non-visible
posts. -/
theorem C4_profile_leaks_draft_cex :
    uBob.id ≠ uAlice.id
    ∧ postDraft.author = uAlice
    ∧ postDraft.is_published = false
    ∧ Profile.feedObservedBy dbDraft (some uBob) "alice" =
        ListingOutcome.ok [annotate dbDraft postDraft]
    ∧ Profile.feedObservedBy dbDraft (some uAlice) "alice" =
        Profile.feedObservedBy dbDraft (some uBob) "alice" := by
  decide

/-- C4 amended: the profile feed is identical for every viewing actor (the
view never consults `request.user`), and when the target username resolves
it contains exactly the posts authored by that user — drafts and
future-dated posts included — each annotated with its comment count and
ordered by `pub_date` descending. -/
theorem C4_amended_profile_feed (db : DB) (v1 v2 : Option User)
    (uname : String) :
    Profile.feedObservedBy db v1 uname = Profile.feedObservedBy db v2 uname
    ∧ (∀ a xs, db.users.find? (fun u => u.username == uname) = some a →
        Profile.get_queryset db uname = ListingOutcome.ok xs →
        ∀ x, x ∈ xs ↔ ∃ p, p ∈ db.posts ∧ p.author.id = a.id ∧
          p.author.username = uname ∧ x = annotate db p)
    ∧ (∀ xs, Profile.get_queryset db uname = ListingOutcome.ok xs →
        xs.Pairwise (fun a b => b.post.pub_date ≤ a.post.pub_date)) := by
  refine ⟨rfl, ?_, ?_⟩
  · intro a xs hfind hok x
    rw [Profile.get_queryset, hfind] at hok
    injection hok with h
    subst h
    rw [mem_order_by_pub_date_desc]
    constructor
    · intro hx
      rcases List.mem_map.mp hx with ⟨p, hp, rfl⟩
      rcases List.mem_filter.mp hp with ⟨hmem, hcond⟩
      simp only [Bool.and_eq_true, beq_iff_eq] at hcond
      exact ⟨p, hmem, hcond.1, hcond.2, rfl⟩
    · rintro ⟨p, hmem, hid, hname, rfl⟩
      refine List.mem_map.mpr ⟨p, List.mem_filter.mpr ⟨hmem, ?_⟩, rfl⟩
      simp only [Bool.and_eq_true, beq_iff_eq]
      exact ⟨hid, hname⟩
  · intro xs hok
    unfold Profile.get_queryset at hok
    cases hfind : db.users.find? (fun u => u.username == uname) with
    | none => rw [hfind] at hok; cases hok
    | some a =>
      rw [hfind] at hok
      injection hok with h
      subst h
      exact sorted_order_by_pub_date_desc _

/-- Witness for the amended C4 at a concrete store: the two observed feeds
coincide, the draft post is a member of the resolved feed, and the resolved
feed is sorted by `pub_date` descending. -/
theorem C4_amended_profile_feed_witness :
    Profile.feedObservedBy dbDraft (some uBob) "alice" =
      Profile.feedObservedBy dbDraft (some uAlice) "alice"
    ∧ annotate dbDraft postDraft ∈ [annotate dbDraft postDraft]
    ∧ ([annotate dbDraft postDraft] : List AnnPost).Pairwise
        (fun a b => b.post.pub_date ≤ a.post.pub_date) :=
  ⟨(C4_amended_profile_feed dbDraft (some uBob) (some uAlice) "alice").1,
    ((C4_amended_profile_feed dbDraft (some uBob) (some uAlice) "alice").2.1
        uAlice [annotate dbDraft postDraft] (by decide) (by decide)
        (annotate dbDraft postDraft)).mpr
      ⟨postDraft, by decide, by decide, by decide, rfl⟩,
    (C4_amended_profile_feed dbDraft (some uBob) (some uAlice) "alice").2.2
      [annotate dbDraft postDraft] (by decide)⟩

/-- C6: for an Update Post request on an existing target, a denied
authorization leaves the store untouched and redirects to the post's detail
view; a granted one saves exactly the `PostForm` fields (the `author` field
is excluded from the editable set and keeps its original value) and directs
to the post's detail view. -/
theorem C6_post_update_frame (db : DB) (actor : User) (pk : Nat)
    (d : PostFormData) (post : Post)
    (hfind : db.posts.find? (fun p => p.pk == pk) = some post) :
    (post.author.id ≠ actor.id →
      PostUpdateView.handle db actor pk d =
        MutOutcome.redirect db (Loc.post_detail pk))
    ∧ (post.author.id = actor.id →
      PostUpdateView.handle db actor pk d =
        MutOutcome.success
          { db with posts := db.posts.map (fun q =>
              if q.pk == post.pk then PostForm.apply q d else q) }
          (Loc.post_detail post.pk))
    ∧ PostForm.apply post d =
        { post with
          title := d.title
          text := d.text
          pub_date := d.pub_date
          is_published := d.is_published
          category := d.category
          location := d.location }
    ∧ (PostForm.apply post d).author = post.author := by
  refine ⟨?_, ?_, rfl, rfl⟩
  · intro hne
    unfold PostUpdateView.handle
    rw [hfind]
    simp [hne]
  · intro heq
    unfold PostUpdateView.handle
    rw [hfind]
    simp [heq]

/-- Witness for C6 at a concrete store: the author updates their own post. -/
theorem C6_post_update_frame_witness :
    dbFeed.posts.find? (fun p => p.pk == 1) = some postPublished
    ∧ postPublished.author.id = uAlice.id
    ∧ PostUpdateView.handle dbFeed uAlice 1 dC6 =
        MutOutcome.success
          { dbFeed with posts := dbFeed.posts.map (fun q =>
              if q.pk == postPublished.pk then PostForm.apply q dC6 else q) }
          (Loc.post_detail postPublished.pk)
    ∧ (PostForm.apply postPublished dC6).author = postPublished.author :=
  ⟨by decide, rfl,
    (C6_post_update_frame dbFeed uAlice 1 dC6 postPublished (by decide)).2.1 rfl,
    (C6_post_update_frame dbFeed uAlice 1 dC6 postPublished (by decide)).2.2.2⟩

/-- C7 counterexample: `uAlice` successfully deletes her own `comment5`
(parent post 3), but the success outcome directs to the global feed
(`blog:index`), not to the parent post's detail view as the claim states. -/
theorem C7_comment_delete_to_index_cex :
    comment5.author.id = uAlice.id
    ∧ comment5.post_id = 3
    ∧ CommentDeleteView.handle dbComments uAlice 3 5 =
        MutOutcome.success { dbComments with comments := [comment7] } Loc.index
    ∧ Loc.index ≠ Loc.post_detail 3 := by
  decide

/-- C7 amended: a successful comment update directs to the detail view of
the post id supplied in the request route (the parent post whenever that id
matches the comment's post), while a successful comment delete directs to
the global feed. -/
theorem C7_amended_comment_success_targets (db : DB) (actor : User)
    (pk comment_pk : Nat) (text : String) (c : Comment)
    (hfind : db.comments.find? (fun c0 => c0.pk == comment_pk) = some c)
    (hauth : c.author.id = actor.id) :
    CommentUpdateView.handle db actor pk comment_pk text =
      MutOutcome.success
        { db with comments := db.comments.map (fun c0 =>
            if c0.pk == c.pk then { c0 with text := text } else c0) }
        (Loc.post_detail pk)
    ∧ CommentDeleteView.handle db actor pk comment_pk =
      MutOutcome.success
        { db with comments := db.comments.filter (fun c0 => c0.pk != c.pk) }
        Loc.index := by
  constructor
  · unfold CommentUpdateView.handle
    rw [hfind]
    simp [hauth]
  · unfold CommentDeleteView.handle
    rw [hfind]
    simp [hauth]

/-- Witness for the amended C7 at a concrete store. -/
theorem C7_amended_comment_success_targets_witness :
    dbComments.comments.find? (fun c0 => c0.pk == 5) = some comment5
    ∧ comment5.author.id = uAlice.id
    ∧ CommentDeleteView.handle dbComments uAlice 3 5 =
        MutOutcome.success
          { dbComments with
            comments := dbComments.comments.filter (fun c0 => c0.pk != comment5.pk) }
          Loc.index :=
  ⟨by decide, rfl,
    (C7_amended_comment_success_targets dbComments uAlice 3 5 "z" comment5
        (by decide) rfl).2⟩

/-- C8: a Create Comment request by an authenticated actor against post id
`pk` yields NotFound with nothing persisted when no such post exists, and
otherwise appends exactly one comment whose author is the actor and whose
post reference is the target post, directing to that post's detail view. -/
theorem C8_comment_create_binds (db : DB) (actor : User) (pk : Nat)
    (text : String) :
    ((∀ p, p ∈ db.posts → p.pk ≠ pk) →
        CommentCreateView.handle db actor pk text = MutOutcome.notFound db)
    ∧ ((∃ p, p ∈ db.posts ∧ p.pk = pk) →
        ∃ c, CommentCreateView.handle db actor pk text =
            MutOutcome.success { db with comments := db.comments ++ [c] }
              (Loc.post_detail pk)
          ∧ c.author = actor ∧ c.post_id = pk ∧ c.text = text) := by
  constructor
  · intro hnone
    have hfind : db.posts.find? (fun p => p.pk == pk) = none := by
      rw [List.find?_eq_none]
      intro p hp
      simp only [beq_iff_eq]
      exact hnone p hp
    unfold CommentCreateView.handle
    rw [hfind]
  · rintro ⟨p, hp, hpk⟩
    cases hfind : db.posts.find? (fun q => q.pk == pk) with
    | none =>
      rw [List.find?_eq_none] at hfind
      exact absurd (beq_iff_eq.mpr hpk) (hfind p hp)
    | some target =>
      have htpk : target.pk = pk := by
        have h := List.find?_some hfind
        simpa using h
      refine ⟨⟨freshCommentPk db, text, actor, target.pk⟩, ?_, rfl, htpk, rfl⟩
      unfold CommentCreateView.handle
      rw [hfind]

/-- Witness for C8 at a concrete store: creating a comment on the existing
post with primary key 1. -/
theorem C8_comment_create_binds_witness :
    (∃ p, p ∈ dbFeed.posts ∧ p.pk = 1)
    ∧ (∃ c, CommentCreateView.handle dbFeed uBob 1 "hi" =
          MutOutcome.success { dbFeed with comments := dbFeed.comments ++ [c] }
            (Loc.post_detail 1)
        ∧ c.author = uBob ∧ c.post_id = 1 ∧ c.text = "hi") :=
  ⟨⟨postPublished, by decide, rfl⟩,
    (C8_comment_create_binds dbFeed uBob 1 "hi").2 ⟨postPublished, by decide, rfl⟩⟩

/-- C9: in both listing querysets the attached `comment_count` equals the
number of comment rows referencing the post in the store the query runs on;
a successful comment creation makes the live count of the target post one
larger, and a successful authorized comment deletion leaves the store with
exactly the rows whose key differs from the deleted comment's, so the next
query (a pure function of the store) reflects the new counts with no
staleness. -/
theorem C9_comment_count_live (db : DB) (now : Int) (uname : String) :
    (∀ x, x ∈ IndexView.get_queryset db now →
        x.comment_count = liveCommentCount db x.post)
    ∧ (∀ xs, Profile.get_queryset db uname = ListingOutcome.ok xs →
        ∀ x, x ∈ xs → x.comment_count = liveCommentCount db x.post)
    ∧ (∀ actor pk text db2 next,
        CommentCreateView.handle db actor pk text = MutOutcome.success db2 next →
        (db2.comments.filter (fun c => c.post_id == pk)).length =
          (db.comments.filter (fun c => c.post_id == pk)).length + 1)
    ∧ (∀ actor pk comment_pk c,
        db.comments.find? (fun c0 => c0.pk == comment_pk) = some c →
        c.author.id = actor.id →
        CommentDeleteView.handle db actor pk comment_pk =
          MutOutcome.success
            { db with comments := db.comments.filter (fun c0 => c0.pk != c.pk) }
            Loc.index) := by
  refine ⟨?_, ?_, ?_, ?_⟩
  · intro x hx
    rw [IndexView.get_queryset, mem_order_by_pub_date_desc] at hx
    rcases List.mem_map.mp hx with ⟨p, _, rfl⟩
    rfl
  · intro xs hok x hx
    unfold Profile.get_queryset at hok
    cases hfind : db.users.find? (fun u => u.username == uname) with
    | none => rw [hfind] at hok; cases hok
    | some a =>
      rw [hfind] at hok
      injection hok with h
      subst h
      rw [mem_order_by_pub_date_desc] at hx
      rcases List.mem_map.mp hx with ⟨p, _, rfl⟩
      rfl
  · intro actor pk text db2 next hsucc
    unfold CommentCreateView.handle at hsucc
    cases hfind : db.posts.find? (fun q => q.pk == pk) with
    | none => rw [hfind] at hsucc; cases hsucc
    | some target =>
      rw [hfind] at hsucc
      injection hsucc with h1 h2
      have htpk : target.pk = pk := by
        have h := List.find?_some hfind
        simpa using h
      subst h1
      simp [List.filter_append, List.filter_cons, htpk]
  · intro actor pk comment_pk c hfind hauth
    unfold CommentDeleteView.handle
    rw [hfind]
    simp [hauth]

/-- Witness for C9 at a concrete store: inserting one comment on post 1
raises its live count from 0 to 1, and the annotated feed entry carries the
live count. -/
theorem C9_comment_count_live_witness :
    CommentCreateView.handle dbFeed uBob 1 "hi" =
      MutOutcome.success dbFeedPlus (Loc.post_detail 1)
    ∧ (dbFeedPlus.comments.filter (fun c => c.post_id == 1)).length =
        (dbFeed.comments.filter (fun c => c.post_id == 1)).length + 1
    ∧ (annotate dbFeed postPublished).comment_count =
        liveCommentCount dbFeed (annotate dbFeed postPublished).post :=
  ⟨by decide,
    (C9_comment_count_live dbFeed 10 "alice").2.2.1 uBob 1 "hi" dbFeedPlus
      (Loc.post_detail 1) (by decide),
    (C9_comment_count_live dbFeed 10 "alice").1 (annotate dbFeed postPublished)
      (by decide)⟩

/-- C10: the edit-own-profile operation ignores any supplied identifier and
always saves the `UserForm` over the requesting actor's own row (the row's
id is preserved), leaves every other user's row unchanged, and its success
outcome directs to the actor's own profile feed. -/
theorem C10_profile_edit_self_only (db : DB) (actor : User) (i j : Option Nat)
    (d : UserFormData) :
    ProfileEdit.handle db actor i d = ProfileEdit.handle db actor j d
    ∧ ProfileEdit.handle db actor i d =
        MutOutcome.success
          { db with users := db.users.map (fun u =>
              if u.id == actor.id then UserForm.apply u d else u) }
          (Loc.profile (UserForm.apply actor d).username)
    ∧ (UserForm.apply actor d).id = actor.id
    ∧ (∀ u, u ∈ db.users → u.id ≠ actor.id →
        u ∈ db.users.map (fun u =>
          if u.id == actor.id then UserForm.apply u d else u)) := by
  refine ⟨rfl, rfl, rfl, ?_⟩
  intro u hu hne
  refine List.mem_map.mpr ⟨u, hu, ?_⟩
  simp [beq_iff_eq, hne]

/-- Witness for C10 at a concrete store: `uAlice` edits her profile with two
different supplied identifiers; `uBob`'s row is untouched. -/
theorem C10_profile_edit_self_only_witness :
    ProfileEdit.handle dbDraft uAlice none dUF =
      ProfileEdit.handle dbDraft uAlice (some 99) dUF
    ∧ uBob ∈ dbDraft.users.map (fun u =>
        if u.id == uAlice.id then UserForm.apply u dUF else u) :=
  ⟨(C10_profile_edit_self_only dbDraft uAlice none (some 99) dUF).1,
    (C10_profile_edit_self_only dbDraft uAlice none (some 99) dUF).2.2.2 uBob
      (by decide) (by decide)⟩
